import Mathlib

/-!
Authentication dispatch, `src/ui/auth/authenticator.go`.

A shallow embedding of the package `auth`: the authenticator registry
(`Register`) and the login orchestrator (`Login`).

The package keeps two package-level variables, `registry` and `lock`; they are
the fields of `State`, which every operation takes and returns.  The calls the
source makes to its collaborators (the configuration provider, the logger, the
lockout tracker, the selected strategy, `fmt.Errorf`, `time.Sleep`) are
recorded, in program order, in the list of `Event`s an operation returns, so
that "is invoked", "is not invoked" and "before" are statements about that list.

Time is a natural number of nanoseconds, as in `time.Duration`.  The clock
`State.now` is read by the lockout tracker and moved forward by `time.Sleep`,
which is given its lower bound: it returns after exactly the duration asked.
-/

namespace auth

/-- Modelled from the spec: the type `models.User` is declared outside this file;
the spec calls it "a resolved user identity (opaque record)".  A nil `*models.User`
is `none : Option User`. -/
structure User where
  UserID : Nat
  Username : String
deriving DecidableEq, Repr

/-- Modelled from the spec: the type `models.AuthModel` is declared outside this
file; the spec's AuthRequest has a "principal (string identifier, e.g., username)"
and "credential material (opaque to the core)".  `Login` reads `Principal` only. -/
structure AuthModel where
  Principal : String
  Password : String
deriving DecidableEq, Repr

/-- A non-nil value of Go's built-in interface `error`, observed through its
message (the result of its method `Error()`); a nil `error` is `none : Option Error`. -/
structure Error where
  msg : String
deriving DecidableEq, Repr

/-- The unit `time.Millisecond`, in nanoseconds. -/
def Millisecond : Nat := 1000000

/-- The constant `frozenTime`, 1.5 seconds: `1500 * time.Millisecond`. -/
def frozenTime : Nat := 1500 * Millisecond

/-- The interface `Authenticator`: a value with the one method `Authenticate`, which
returns a pair `(*models.User, error)`; either component may be nil. -/
structure Authenticator where
  Authenticate : AuthModel → Option User × Option Error

/-- Modelled from the spec: the type `UserLock` (the Lockout Tracker) is used by this
file but declared outside it.  The spec: "per principal, a single timestamp marking
locked until", "absence of an entry means never locked", "constructed with a single
parameter: freezeDuration". -/
structure UserLock where
  lockedUntil : String → Option Nat
  d : Nat

/-- Modelled from the spec: the constructor `NewUserLock` of the Lockout Tracker, which
is declared outside this file: no principal has an entry, the freeze duration is the
argument. -/
def NewUserLock (freeze : Nat) : UserLock :=
  { lockedUntil := fun _ => none, d := freeze }

/-- Modelled from the spec: the method `IsLocked` of the Lockout Tracker, which is
declared outside this file: "returns true if-and-only-if the current time is strictly
before the recorded locked until deadline for that principal.  No entry => false." -/
def UserLock.IsLocked (ul : UserLock) (now : Nat) (username : String) : Bool :=
  match ul.lockedUntil username with
  | none => false
  | some deadline => decide (now < deadline)

/-- Modelled from the spec: the method `Lock` of the Lockout Tracker, which is declared
outside this file: "records now + freezeDuration as the new deadline for that
principal, overwriting any prior deadline". -/
def UserLock.Lock (ul : UserLock) (now : Nat) (username : String) : UserLock :=
  { ul with lockedUntil := fun u => if u = username then some (now + ul.d) else ul.lockedUntil u }

/-- The calls `Register` and `Login` make, one constructor per callee. -/
inductive Event where
  /-- Call of `config.AuthMode()`. -/
  | AuthMode
  /-- Call of `log.Infof`, with the formatted message. -/
  | Infof (msg : String)
  /-- Call of `log.Debug`, with the printed message. -/
  | Debug (msg : String)
  /-- Call of `log.Debugf`, with the formatted message. -/
  | Debugf (msg : String)
  /-- The read `registry[name]` made by `Login`. -/
  | lookup (name : String)
  /-- Call of `fmt.Errorf`, with the formatted message. -/
  | Errorf (msg : String)
  /-- Call of `lock.IsLocked(username)`. -/
  | IsLocked (username : String)
  /-- Call of `authenticator.Authenticate(m)`. -/
  | Authenticate (authenticator : Authenticator) (m : AuthModel)
  /-- Call of `lock.Lock(username)`. -/
  | Lock (username : String)
  /-- Call of `time.Sleep(d)`. -/
  | Sleep (d : Nat)

/-- Whether an event is a call of a strategy's `Authenticate`. -/
def Event.isAuthenticate : Event → Bool
  | .Authenticate _ _ => true
  | _ => false

/-- Whether an event is a call of `lock.Lock`. -/
def Event.isLock : Event → Bool
  | .Lock _ => true
  | _ => false

/-- Whether an event is a call of `lock.IsLocked`. -/
def Event.isIsLocked : Event → Bool
  | .IsLocked _ => true
  | _ => false

/-- Whether an event is a call of `time.Sleep`. -/
def Event.isSleep : Event → Bool
  | .Sleep _ => true
  | _ => false

/-- Whether an event is a read of the registry. -/
def Event.isLookup : Event → Bool
  | .lookup _ => true
  | _ => false

/-- Whether an event is a call of `fmt.Errorf`. -/
def Event.isErrorf : Event → Bool
  | .Errorf _ => true
  | _ => false

/-- The package-level variables `registry` (a Go map from mode name to strategy, whose
values are non-nil strategies) and `lock`, and the wall clock. -/
structure State where
  registry : String → Option Authenticator
  lock : UserLock
  now : Nat

/-- The package's variables as their initialisers leave them, at time `now`:
`registry = make(map[string]Authenticator)` and `lock = NewUserLock(frozenTime)`. -/
def State.init (now : Nat) : State :=
  { registry := fun _ => none, lock := NewUserLock frozenTime, now := now }

/-- The function `Register`: does nothing but log when `name` is bound already, binds
`name` to `authenticator` otherwise.  It has no result value. -/
def Register (name : String) (authenticator : Authenticator) (s : State) :
    State × List Event :=
  match s.registry name with
  | some _ =>
    (s, [Event.Infof ("authenticator: " ++ name ++ " has been registered")])
  | none =>
    ({ s with registry := fun k => if k = name then some authenticator else s.registry k }, [])

/-- What a call of `Login` leaves: the pair `(user, err)` it returns, the package's
variables and the clock afterwards, and the calls it made, in order. -/
structure LoginResult where
  user : Option User
  err : Option Error
  state : State
  events : List Event

/-- The function `Login`.  The argument `config` is the pair `config.AuthMode()` returns
when `Login` calls it. -/
def Login (config : String × Option Error) (m : AuthModel) (s : State) : LoginResult :=
  match config with
  | (_, some err) =>
    { user := none, err := some err, state := s, events := [Event.AuthMode] }
  | (authMode, none) =>
    let authMode := if authMode = "" ∨ m.Principal = "admin" then "db_auth" else authMode
    let ev := [Event.AuthMode, Event.Debug ("Current AUTH_MODE is " ++ authMode),
      Event.lookup authMode]
    match s.registry authMode with
    | none =>
      { user := none, err := some ⟨"Unrecognized auth_mode: " ++ authMode⟩, state := s,
        events := ev ++ [Event.Errorf ("Unrecognized auth_mode: " ++ authMode)] }
    | some authenticator =>
      if s.lock.IsLocked s.now m.Principal then
        { user := none, err := none, state := s,
          events := ev ++ [Event.IsLocked m.Principal,
            Event.Debugf (m.Principal ++ " is locked due to login failure, login failed")] }
      else
        let (user, err) := authenticator.Authenticate m
        if user.isNone && err.isNone then
          { user := user, err := err,
            state := { s with lock := s.lock.Lock s.now m.Principal, now := s.now + frozenTime },
            events := ev ++ [Event.IsLocked m.Principal, Event.Authenticate authenticator m,
              Event.Debugf ("Login failed, locking " ++ m.Principal ++ ", and sleep for 1.5s"),
              Event.Lock m.Principal, Event.Sleep frozenTime] }
        else
          { user := user, err := err, state := s,
            events := ev ++ [Event.IsLocked m.Principal, Event.Authenticate authenticator m] }

/-- An example strategy that declines every request: it returns `(nil, nil)`. -/
def declineAll : Authenticator :=
  { Authenticate := fun _ => (none, none) }

/-- An example strategy that accepts every request as the user named by its principal. -/
def acceptAll : Authenticator :=
  { Authenticate := fun m => (some { UserID := 1, Username := m.Principal }, none) }

/-- An example strategy that fails internally: it returns no user and the given error. -/
def failWith (e : Error) : Authenticator :=
  { Authenticate := fun _ => (none, some e) }

/-- An example strategy that returns both a user and an error, which the result type
`(*models.User, error)` of `Authenticate` allows. -/
def userAndError : Authenticator :=
  { Authenticate := fun m => (some { UserID := 1, Username := m.Principal }, some ⟨"partial"⟩) }

/-- The package's variables after the registrations listed in `regs`, made in order on
the variables as initialised at time `now`. -/
def State.registered (regs : List (String × Authenticator)) (now : Nat) : State :=
  regs.foldl (fun s r => (Register r.1 r.2 s).1) (State.init now)

/-- The same package variables with the clock reading `t`. -/
def State.atTime (s : State) (t : Nat) : State :=
  { s with now := t }

/-- The package's variables at time `now`, with `"db_auth"` bound to the accepting strategy
and with `"mallory"` locked at time 0, that is until `frozenTime`. -/
def State.malloryLocked (now : Nat) : State :=
  { registry := fun k => if k = "db_auth" then some acceptAll else none,
    lock := (NewUserLock frozenTime).Lock 0 "mallory",
    now := now }

end auth

namespace auth

/-- C1: registering a name twice keeps the first strategy.  After `Register(n, A)` on a
state where `n` is unbound, `Register(n, B)` returns the state unchanged and `n` is
still bound to `A`; and on any state where `n` is bound, `Register(n, B)` returns the
state unchanged (registry, lockout tracker and clock) and only logs an informational
message: `Register` has no error result. -/
theorem Register_first_wins (s : State) (n : String) (A B : Authenticator) :
    (s.registry n = none →
      (Register n B (Register n A s).1).1 = (Register n A s).1 ∧
      (Register n B (Register n A s).1).1.registry n = some A) ∧
    (∀ a, s.registry n = some a →
      Register n B s = (s, [Event.Infof ("authenticator: " ++ n ++ " has been registered")])) := by
  constructor
  · intro h
    have h1 : (Register n A s).1.registry n = some A := by
      simp [Register, h]
    have h2 : (Register n B (Register n A s).1).1 = (Register n A s).1 := by
      generalize (Register n A s).1 = t at h1
      simp [Register, h1]
    rw [h2]
    exact ⟨rfl, h1⟩
  · intro a h
    simp [Register, h]

/-- Witness of C1: on the empty registry, `"x"` registered with the accepting strategy and
then with the declining one is bound to the accepting one. -/
theorem Register_first_wins_witness :
    (Register "x" declineAll (Register "x" acceptAll (State.init 0)).1).1.registry "x"
      = some acceptAll :=
  ((Register_first_wins (State.init 0) "x" acceptAll declineAll).1 rfl).2

/-- C10: on a state where `n` is unbound, `Register(n, A)` binds `n` to `A`, leaves the
binding (or absence of one) of every other name as it was, leaves the lockout tracker
and the clock alone and logs nothing. -/
theorem Register_adds_binding (s : State) (n : String) (A : Authenticator)
    (h : s.registry n = none) :
    (Register n A s).1.registry n = some A ∧
    (∀ k, k ≠ n → (Register n A s).1.registry k = s.registry k) ∧
    (Register n A s).1.lock = s.lock ∧
    (Register n A s).1.now = s.now ∧
    (Register n A s).2 = [] := by
  refine ⟨?_, ?_, ?_, ?_, ?_⟩
  · simp [Register, h]
  · intro k hk
    simp [Register, h, hk]
  · simp [Register, h]
  · simp [Register, h]
  · simp [Register, h]

/-- Witness of C10: registering `"db_auth"` on the empty registry. -/
theorem Register_adds_binding_witness :
    (Register "db_auth" acceptAll (State.init 0)).1.registry "db_auth" = some acceptAll ∧
    (∀ k, k ≠ "db_auth" →
      (Register "db_auth" acceptAll (State.init 0)).1.registry k = (State.init 0).registry k) ∧
    (Register "db_auth" acceptAll (State.init 0)).1.lock = (State.init 0).lock ∧
    (Register "db_auth" acceptAll (State.init 0)).1.now = (State.init 0).now ∧
    (Register "db_auth" acceptAll (State.init 0)).2 = [] :=
  Register_adds_binding (State.init 0) "db_auth" acceptAll rfl

/-- The run of `Login` when the effective mode `e` has no entry in the registry. -/
lemma Login_unregistered (c : String) (m : AuthModel) (s : State) (e : String)
    (he : e = if c = "" ∨ m.Principal = "admin" then "db_auth" else c)
    (hreg : s.registry e = none) :
    Login (c, none) m s =
      { user := none, err := some ⟨"Unrecognized auth_mode: " ++ e⟩, state := s,
        events := [Event.AuthMode, Event.Debug ("Current AUTH_MODE is " ++ e), Event.lookup e,
          Event.Errorf ("Unrecognized auth_mode: " ++ e)] } := by
  subst he
  simp only [Login, hreg]
  rfl

/-- The run of `Login` when the principal is locked. -/
lemma Login_locked (c : String) (m : AuthModel) (s : State) (e : String) (a : Authenticator)
    (he : e = if c = "" ∨ m.Principal = "admin" then "db_auth" else c)
    (hreg : s.registry e = some a)
    (hlock : s.lock.IsLocked s.now m.Principal = true) :
    Login (c, none) m s =
      { user := none, err := none, state := s,
        events := [Event.AuthMode, Event.Debug ("Current AUTH_MODE is " ++ e), Event.lookup e,
          Event.IsLocked m.Principal,
          Event.Debugf (m.Principal ++ " is locked due to login failure, login failed")] } := by
  subst he
  simp only [Login, hreg, hlock]
  rfl

/-- The run of `Login` when the strategy declines: `(nil, nil)`. -/
lemma Login_declined (c : String) (m : AuthModel) (s : State) (e : String) (a : Authenticator)
    (he : e = if c = "" ∨ m.Principal = "admin" then "db_auth" else c)
    (hreg : s.registry e = some a)
    (hlock : s.lock.IsLocked s.now m.Principal = false)
    (hres : a.Authenticate m = (none, none)) :
    Login (c, none) m s =
      { user := none, err := none,
        state := { s with lock := s.lock.Lock s.now m.Principal, now := s.now + frozenTime },
        events := [Event.AuthMode, Event.Debug ("Current AUTH_MODE is " ++ e), Event.lookup e,
          Event.IsLocked m.Principal, Event.Authenticate a m,
          Event.Debugf ("Login failed, locking " ++ m.Principal ++ ", and sleep for 1.5s"),
          Event.Lock m.Principal, Event.Sleep frozenTime] } := by
  subst he
  simp only [Login, hreg, hlock, hres]
  rfl

/-- The run of `Login` when the strategy returns anything but `(nil, nil)`. -/
lemma Login_passed (c : String) (m : AuthModel) (s : State) (e : String) (a : Authenticator)
    (he : e = if c = "" ∨ m.Principal = "admin" then "db_auth" else c)
    (hreg : s.registry e = some a)
    (hlock : s.lock.IsLocked s.now m.Principal = false)
    (hres : a.Authenticate m ≠ (none, none)) :
    Login (c, none) m s =
      { user := (a.Authenticate m).1, err := (a.Authenticate m).2, state := s,
        events := [Event.AuthMode, Event.Debug ("Current AUTH_MODE is " ++ e), Event.lookup e,
          Event.IsLocked m.Principal, Event.Authenticate a m] } := by
  subst he
  rcases hpair : a.Authenticate m with ⟨u, x⟩
  rw [hpair] at hres
  have hnot : (u.isNone && x.isNone) = false := by
    cases u <;> cases x <;> simp at hres ⊢
  simp only [Login, hreg, hlock, hpair, hnot]
  rfl

/-- C2: when the configuration provider returns the mode `c` without error, `Login`
reads the registry once, at the effective mode `e`, which is `"db_auth"` if `c` is empty
or the principal is `"admin"` and `c` otherwise; every strategy it invokes is the one
bound to `e`, and it is invoked with the request `m`; when `e` is bound to `a` and the
principal is not locked, `a` is invoked exactly once and its pair is what `Login`
returns.  In particular, when `c` is empty or the principal is `"admin"`, whatever `c`
is, the registry is read at `"db_auth"` and only the strategy bound to `"db_auth"` can
be invoked. -/
theorem Login_uses_effective_mode (c : String) (m : AuthModel) (s : State) :
    (Login (c, none) m s).events.filter Event.isLookup
      = [Event.lookup (if c = "" ∨ m.Principal = "admin" then "db_auth" else c)] ∧
    (∀ a m', Event.Authenticate a m' ∈ (Login (c, none) m s).events →
      s.registry (if c = "" ∨ m.Principal = "admin" then "db_auth" else c) = some a ∧ m' = m) ∧
    (∀ a, s.registry (if c = "" ∨ m.Principal = "admin" then "db_auth" else c) = some a →
      s.lock.IsLocked s.now m.Principal = false →
      (Login (c, none) m s).events.filter Event.isAuthenticate = [Event.Authenticate a m] ∧
      ((Login (c, none) m s).user, (Login (c, none) m s).err) = a.Authenticate m) ∧
    (c = "" ∨ m.Principal = "admin" →
      (Login (c, none) m s).events.filter Event.isLookup = [Event.lookup "db_auth"] ∧
      ∀ a m', Event.Authenticate a m' ∈ (Login (c, none) m s).events →
        s.registry "db_auth" = some a ∧ m' = m) := by
  have key : ∀ e : String, e = (if c = "" ∨ m.Principal = "admin" then "db_auth" else c) →
      (Login (c, none) m s).events.filter Event.isLookup = [Event.lookup e] ∧
      (∀ a m', Event.Authenticate a m' ∈ (Login (c, none) m s).events →
        s.registry e = some a ∧ m' = m) ∧
      (∀ a, s.registry e = some a → s.lock.IsLocked s.now m.Principal = false →
        (Login (c, none) m s).events.filter Event.isAuthenticate = [Event.Authenticate a m] ∧
        ((Login (c, none) m s).user, (Login (c, none) m s).err) = a.Authenticate m) := by
    intro e he
    cases hreg : s.registry e with
    | none =>
      rw [Login_unregistered c m s e he hreg]
      simp [Event.isLookup]
    | some a =>
      cases hlock : s.lock.IsLocked s.now m.Principal with
      | true =>
        rw [Login_locked c m s e a he hreg hlock]
        simp [Event.isLookup]
      | false =>
        by_cases hres : a.Authenticate m = (none, none)
        · rw [Login_declined c m s e a he hreg hlock hres]
          simp [Event.isLookup, Event.isAuthenticate, hres]
        · rw [Login_passed c m s e a he hreg hlock hres]
          simp [Event.isLookup, Event.isAuthenticate]
  refine ⟨(key _ rfl).1, (key _ rfl).2.1, (key _ rfl).2.2, ?_⟩
  intro h
  have he : "db_auth" = (if c = "" ∨ m.Principal = "admin" then "db_auth" else c) := by
    rw [if_pos h]
  exact ⟨(key _ he).1, (key _ he).2.1⟩

/-- Witness of C2: with the mode configured as `"ldap"` and the principal `"admin"`, on a
registry that binds `"db_auth"` and `"ldap"` to different strategies, the one strategy
invoked is the one bound to `"db_auth"`. -/
theorem Login_uses_effective_mode_witness :
    (Login ("ldap", none) { Principal := "admin", Password := "pw" }
        (State.registered [("db_auth", acceptAll), ("ldap", declineAll)] 0)).events.filter
        Event.isAuthenticate
      = [Event.Authenticate acceptAll { Principal := "admin", Password := "pw" }] ∧
    ((Login ("ldap", none) { Principal := "admin", Password := "pw" }
        (State.registered [("db_auth", acceptAll), ("ldap", declineAll)] 0)).user,
     (Login ("ldap", none) { Principal := "admin", Password := "pw" }
        (State.registered [("db_auth", acceptAll), ("ldap", declineAll)] 0)).err)
      = acceptAll.Authenticate { Principal := "admin", Password := "pw" } :=
  (Login_uses_effective_mode "ldap" { Principal := "admin", Password := "pw" }
    (State.registered [("db_auth", acceptAll), ("ldap", declineAll)] 0)).2.2.1
    acceptAll (by rfl) (by rfl)

/-- C3: when the effective mode `e` is bound to a strategy, the principal is not locked
and the strategy returns `(nil, nil)`, `Login` returns `(nil, nil)`; the calls it makes
are, in this order, the configuration read, the registry read, `lock.IsLocked`, the
strategy, one `lock.Lock(m.Principal)` and then one `time.Sleep(frozenTime)`, with
`frozenTime` 1500 ms; afterwards the tracker is the old one with `Lock` applied once, for
`m.Principal`, at the time of the call, the clock has advanced by `frozenTime` and the
registry is as it was. -/
theorem Login_declined_arms_then_sleeps (c : String) (m : AuthModel) (s : State) (e : String)
    (a : Authenticator)
    (he : e = if c = "" ∨ m.Principal = "admin" then "db_auth" else c)
    (hreg : s.registry e = some a)
    (hlock : s.lock.IsLocked s.now m.Principal = false)
    (hres : a.Authenticate m = (none, none)) :
    (Login (c, none) m s).user = none ∧
    (Login (c, none) m s).err = none ∧
    (Login (c, none) m s).events =
      [Event.AuthMode, Event.Debug ("Current AUTH_MODE is " ++ e), Event.lookup e,
        Event.IsLocked m.Principal, Event.Authenticate a m,
        Event.Debugf ("Login failed, locking " ++ m.Principal ++ ", and sleep for 1.5s"),
        Event.Lock m.Principal, Event.Sleep frozenTime] ∧
    (Login (c, none) m s).events.filter Event.isLock = [Event.Lock m.Principal] ∧
    (Login (c, none) m s).events.filter Event.isSleep = [Event.Sleep (1500 * 1000000)] ∧
    (Login (c, none) m s).state.lock = s.lock.Lock s.now m.Principal ∧
    (Login (c, none) m s).state.now = s.now + 1500 * 1000000 ∧
    (Login (c, none) m s).state.registry = s.registry := by
  rw [Login_declined c m s e a he hreg hlock hres]
  simp [Event.isLock, Event.isSleep, frozenTime, Millisecond]

/-- Witness of C3: `"alice"` on a registry whose `"db_auth"` strategy declines. -/
theorem Login_declined_arms_then_sleeps_witness :
    (Login ("", none) { Principal := "alice", Password := "guess" }
        (State.registered [("db_auth", declineAll)] 7)).events.filter Event.isLock
      = [Event.Lock "alice"] ∧
    (Login ("", none) { Principal := "alice", Password := "guess" }
        (State.registered [("db_auth", declineAll)] 7)).state.now = 7 + 1500 * 1000000 :=
  have h := Login_declined_arms_then_sleeps "" { Principal := "alice", Password := "guess" }
    (State.registered [("db_auth", declineAll)] 7) "db_auth" declineAll (by rfl) (by rfl)
    (by rfl) (by rfl)
  ⟨h.2.2.2.1, h.2.2.2.2.2.2.1⟩

/-- C4: when the effective mode `e` is bound to a strategy and the tracker reports the
principal as locked, `Login` returns `(nil, nil)` and leaves the registry, the tracker
(so every recorded deadline) and the clock as they were; the calls it makes are the
configuration read, the registry read and `lock.IsLocked`, with their log lines: no
strategy is invoked, `lock.Lock` is not called, `time.Sleep` is not called. -/
theorem Login_locked_rejects (c : String) (m : AuthModel) (s : State) (e : String)
    (a : Authenticator)
    (he : e = if c = "" ∨ m.Principal = "admin" then "db_auth" else c)
    (hreg : s.registry e = some a)
    (hlock : s.lock.IsLocked s.now m.Principal = true) :
    (Login (c, none) m s).user = none ∧
    (Login (c, none) m s).err = none ∧
    (Login (c, none) m s).state = s ∧
    (∀ p, (Login (c, none) m s).state.lock.lockedUntil p = s.lock.lockedUntil p) ∧
    (Login (c, none) m s).events =
      [Event.AuthMode, Event.Debug ("Current AUTH_MODE is " ++ e), Event.lookup e,
        Event.IsLocked m.Principal,
        Event.Debugf (m.Principal ++ " is locked due to login failure, login failed")] ∧
    (Login (c, none) m s).events.all
      (fun ev => !ev.isAuthenticate && !ev.isLock && !ev.isSleep) = true := by
  rw [Login_locked c m s e a he hreg hlock]
  simp [Event.isAuthenticate, Event.isLock, Event.isSleep]

/-- Witness of C4: `"mallory"`, locked until `frozenTime`, tries again at time 10. -/
theorem Login_locked_rejects_witness :
    (Login ("", none) { Principal := "mallory", Password := "pw" }
        (State.malloryLocked 10)).state = State.malloryLocked 10 ∧
    (Login ("", none) { Principal := "mallory", Password := "pw" }
        (State.malloryLocked 10)).events.all
      (fun ev => !ev.isAuthenticate && !ev.isLock && !ev.isSleep) = true :=
  have h := Login_locked_rejects "" { Principal := "mallory", Password := "pw" }
    (State.malloryLocked 10) "db_auth" acceptAll (by rfl) (by rfl) (by rfl)
  ⟨h.2.2.1, h.2.2.2.2.2⟩

/-- C5: when the effective mode `e` is bound to a strategy, the principal is not locked
and the strategy returns a pair other than `(nil, nil)`, `Login` returns that pair;
it leaves the registry, the tracker and the clock as they were, its calls end with the
strategy's, so it calls neither `lock.Lock` nor `time.Sleep`; the answer of `IsLocked` is
afterwards what it was for every principal, and the request's principal is still
unlocked. -/
theorem Login_passes_strategy_result (c : String) (m : AuthModel) (s : State) (e : String)
    (a : Authenticator)
    (he : e = if c = "" ∨ m.Principal = "admin" then "db_auth" else c)
    (hreg : s.registry e = some a)
    (hlock : s.lock.IsLocked s.now m.Principal = false)
    (hres : a.Authenticate m ≠ (none, none)) :
    ((Login (c, none) m s).user, (Login (c, none) m s).err) = a.Authenticate m ∧
    (Login (c, none) m s).state = s ∧
    (Login (c, none) m s).events =
      [Event.AuthMode, Event.Debug ("Current AUTH_MODE is " ++ e), Event.lookup e,
        Event.IsLocked m.Principal, Event.Authenticate a m] ∧
    (Login (c, none) m s).events.all (fun ev => !ev.isLock && !ev.isSleep) = true ∧
    (∀ p, (Login (c, none) m s).state.lock.IsLocked (Login (c, none) m s).state.now p
      = s.lock.IsLocked s.now p) ∧
    (Login (c, none) m s).state.lock.IsLocked (Login (c, none) m s).state.now m.Principal
      = false := by
  rw [Login_passed c m s e a he hreg hlock hres]
  simp [Event.isLock, Event.isSleep, hlock]

/-- Witness of C5: the strategy returns `(nil, someError)` for `"bob"`; the error comes
back unchanged and `"bob"` is not locked afterwards. -/
theorem Login_passes_strategy_result_witness :
    ((Login ("ldap", none) { Principal := "bob", Password := "pw" }
        (State.registered [("ldap", failWith ⟨"upstream unreachable"⟩)] 3)).user,
     (Login ("ldap", none) { Principal := "bob", Password := "pw" }
        (State.registered [("ldap", failWith ⟨"upstream unreachable"⟩)] 3)).err)
      = (none, some ⟨"upstream unreachable"⟩) ∧
    (Login ("ldap", none) { Principal := "bob", Password := "pw" }
        (State.registered [("ldap", failWith ⟨"upstream unreachable"⟩)] 3)).state.lock.IsLocked
      (Login ("ldap", none) { Principal := "bob", Password := "pw" }
        (State.registered [("ldap", failWith ⟨"upstream unreachable"⟩)] 3)).state.now "bob"
      = false :=
  have h := Login_passes_strategy_result "ldap" { Principal := "bob", Password := "pw" }
    (State.registered [("ldap", failWith ⟨"upstream unreachable"⟩)] 3) "ldap"
    (failWith ⟨"upstream unreachable"⟩) (by rfl) (by rfl) (by rfl) (by simp [failWith])
  ⟨h.1, h.2.2.2.2.2⟩

/-- C7: when the configuration provider returns the error `err`, `Login` returns
`(nil, err)`, for every request (the principal `"admin"` included), every mode string
that comes with the error and every state; the one call it makes is the configuration
read, so there is no registry read, no `lock.IsLocked`, no `lock.Lock`, no strategy and
no `time.Sleep`, and the registry, the tracker and the clock are as they were. -/
theorem Login_config_error (c : String) (err : Error) (m : AuthModel) (s : State) :
    (Login (c, some err) m s).user = none ∧
    (Login (c, some err) m s).err = some err ∧
    (Login (c, some err) m s).state = s ∧
    (Login (c, some err) m s).events = [Event.AuthMode] := by
  simp [Login]

/-- Counterexample to C6 as stated: `"db_auth"` is registered, with a strategy that fails
with the message `"Unrecognized auth_mode: db_auth"`; for the principal `"carol"` and an
empty configured mode the effective mode is `"db_auth"`, and `Login` returns a nil user
and an error with exactly that message, although the effective mode is registered. -/
theorem Login_unrecognized_message_from_strategy :
    (State.registered [("db_auth", failWith ⟨"Unrecognized auth_mode: db_auth"⟩)] 0).registry
        "db_auth" = some (failWith ⟨"Unrecognized auth_mode: db_auth"⟩) ∧
    (Login ("", none) { Principal := "carol", Password := "pw" }
        (State.registered [("db_auth", failWith ⟨"Unrecognized auth_mode: db_auth"⟩)] 0)).user
      = none ∧
    (Login ("", none) { Principal := "carol", Password := "pw" }
        (State.registered [("db_auth", failWith ⟨"Unrecognized auth_mode: db_auth"⟩)] 0)).err
      = some ⟨"Unrecognized auth_mode: " ++ "db_auth"⟩ :=
  ⟨by rfl, by rfl, by rfl⟩

/-- C6, amended: when the effective mode `e` has no entry in the registry, `Login` returns
a nil user and the error with message `"Unrecognized auth_mode: "` followed by `e`,
whether or not the principal is locked; its calls are the configuration read, the
registry read and `fmt.Errorf`, so no strategy, no `lock.IsLocked`, no `lock.Lock` and no
`time.Sleep`, and the state is as it was.  When `e` is bound to a strategy, `Login` does
not build this error (no call of `fmt.Errorf`): what it returns is `(nil, nil)` or the
pair the strategy returned, so such an error comes back only if the strategy returned
it. -/
theorem Login_unrecognized_mode (c : String) (m : AuthModel) (s : State) (e : String)
    (he : e = if c = "" ∨ m.Principal = "admin" then "db_auth" else c) :
    (s.registry e = none →
      (Login (c, none) m s).user = none ∧
      (Login (c, none) m s).err = some ⟨"Unrecognized auth_mode: " ++ e⟩ ∧
      (Login (c, none) m s).state = s ∧
      (Login (c, none) m s).events =
        [Event.AuthMode, Event.Debug ("Current AUTH_MODE is " ++ e), Event.lookup e,
          Event.Errorf ("Unrecognized auth_mode: " ++ e)] ∧
      (Login (c, none) m s).events.all
        (fun ev => !ev.isAuthenticate && !ev.isIsLocked && !ev.isLock && !ev.isSleep) = true) ∧
    (∀ a, s.registry e = some a →
      (Login (c, none) m s).events.all (fun ev => !ev.isErrorf) = true ∧
      (((Login (c, none) m s).user, (Login (c, none) m s).err) = (none, none) ∨
       ((Login (c, none) m s).user, (Login (c, none) m s).err) = a.Authenticate m)) := by
  constructor
  · intro hreg
    rw [Login_unregistered c m s e he hreg]
    simp [Event.isAuthenticate, Event.isIsLocked, Event.isLock, Event.isSleep]
  · intro a hreg
    cases hlock : s.lock.IsLocked s.now m.Principal with
    | true =>
      rw [Login_locked c m s e a he hreg hlock]
      simp [Event.isErrorf]
    | false =>
      by_cases hres : a.Authenticate m = (none, none)
      · rw [Login_declined c m s e a he hreg hlock hres]
        simp [Event.isErrorf]
      · rw [Login_passed c m s e a he hreg hlock hres]
        simp [Event.isErrorf]

/-- Witness of C6, amended: the mode `"ldap"` is not registered and the principal
`"mallory"` is locked; `Login` fails with the mode error and does not consult the
tracker. -/
theorem Login_unrecognized_mode_witness :
    (State.malloryLocked 10).lock.IsLocked 10 "mallory" = true ∧
    (Login ("ldap", none) { Principal := "mallory", Password := "pw" }
        (State.malloryLocked 10)).err = some ⟨"Unrecognized auth_mode: " ++ "ldap"⟩ ∧
    (Login ("ldap", none) { Principal := "mallory", Password := "pw" }
        (State.malloryLocked 10)).events.all
      (fun ev => !ev.isAuthenticate && !ev.isIsLocked && !ev.isLock && !ev.isSleep) = true :=
  have h := (Login_unrecognized_mode "ldap" { Principal := "mallory", Password := "pw" }
    (State.malloryLocked 10) "ldap" (by rfl)).1 (by rfl)
  ⟨by rfl, h.2.1, h.2.2.2.2⟩

/-- Counterexample to C8 as stated: the strategy bound to `"db_auth"` returns both a user
and an error, and `Login` returns both. -/
theorem Login_returns_user_and_error :
    (Login ("", none) { Principal := "carol", Password := "pw" }
        (State.registered [("db_auth", userAndError)] 0)).user
      = some { UserID := 1, Username := "carol" } ∧
    (Login ("", none) { Principal := "carol", Password := "pw" }
        (State.registered [("db_auth", userAndError)] 0)).err = some ⟨"partial"⟩ :=
  ⟨by rfl, by rfl⟩

/-- C8, amended: the pair `Login` returns has a nil user or a nil error, unless the
configuration read succeeded, the principal is not locked and the strategy bound to the
effective mode returned that very pair; so when no registered strategy returns both a
user and an error for the request, `Login` does not either. -/
theorem Login_user_and_error_only_from_strategy (config : String × Option Error)
    (m : AuthModel) (s : State) :
    (((Login config m s).user = none ∨ (Login config m s).err = none) ∨
      ∃ a, config.2 = none ∧
        s.registry (if config.1 = "" ∨ m.Principal = "admin" then "db_auth" else config.1)
          = some a ∧
        s.lock.IsLocked s.now m.Principal = false ∧
        a.Authenticate m = ((Login config m s).user, (Login config m s).err)) ∧
    ((∀ n a, s.registry n = some a →
        (a.Authenticate m).1 = none ∨ (a.Authenticate m).2 = none) →
      (Login config m s).user = none ∨ (Login config m s).err = none) := by
  have key : ((Login config m s).user = none ∨ (Login config m s).err = none) ∨
      ∃ a, config.2 = none ∧
        s.registry (if config.1 = "" ∨ m.Principal = "admin" then "db_auth" else config.1)
          = some a ∧
        s.lock.IsLocked s.now m.Principal = false ∧
        a.Authenticate m = ((Login config m s).user, (Login config m s).err) := by
    rcases config with ⟨c, _ | err⟩
    · cases hreg : s.registry (if c = "" ∨ m.Principal = "admin" then "db_auth" else c) with
      | none =>
        rw [Login_unregistered c m s _ rfl hreg]
        simp
      | some a =>
        cases hlock : s.lock.IsLocked s.now m.Principal with
        | true =>
          rw [Login_locked c m s _ a rfl hreg hlock]
          simp
        | false =>
          by_cases hres : a.Authenticate m = (none, none)
          · rw [Login_declined c m s _ a rfl hreg hlock hres]
            simp
          · rw [Login_passed c m s _ a rfl hreg hlock hres]
            right
            exact ⟨a, rfl, rfl, rfl, rfl⟩
    · left
      left
      simp [Login]
  refine ⟨key, ?_⟩
  intro h
  rcases key with hk | ⟨a, _, hreg, _, hpair⟩
  · exact hk
  · have := h _ a hreg
    rw [hpair] at this
    exact this

/-- Witness of C8, amended: every strategy registered returns a user or an error, never
both, and so does `Login`. -/
theorem Login_user_and_error_only_from_strategy_witness :
    (Login ("ldap", none) { Principal := "dave", Password := "pw" }
        (State.registered [("db_auth", acceptAll), ("ldap", failWith ⟨"down"⟩)] 0)).user = none ∨
    (Login ("ldap", none) { Principal := "dave", Password := "pw" }
        (State.registered [("db_auth", acceptAll), ("ldap", failWith ⟨"down"⟩)] 0)).err = none :=
  (Login_user_and_error_only_from_strategy ("ldap", none) { Principal := "dave", Password := "pw" }
    (State.registered [("db_auth", acceptAll), ("ldap", failWith ⟨"down"⟩)] 0)).2
    (by
      intro n a h
      simp only [State.registered, State.init, List.foldl, Register] at h
      by_cases h1 : n = "db_auth"
      · subst h1
        simp at h
        subst h
        simp [acceptAll]
      · by_cases h2 : n = "ldap"
        · subst h2
          simp at h
          subst h
          simp [failWith]
        · simp [h1, h2] at h)

/-- Right after `Lock` at time `now`, `IsLocked` at time `t` is true exactly when `t` is
before `now + d`. -/
lemma UserLock.IsLocked_Lock (ul : UserLock) (now t : Nat) (p : String) :
    (ul.Lock now p).IsLocked t p = decide (t < now + ul.d) := by
  simp [UserLock.IsLocked, UserLock.Lock]

/-- Counterexample to C9 as stated: `"alice"` is not locked, `"db_auth"` is bound to a
strategy that returns `(nil, nil)`, and the tracker is `NewUserLock(frozenTime)`.  The
first `Login` arms the lock until `0 + frozenTime` and returns at time `0 + frozenTime`;
at that time `"alice"` is not locked any more, and the second `Login`, begun on the
state the first one left, invokes the strategy again. -/
theorem Login_again_after_return_invokes_strategy :
    (State.registered [("db_auth", declineAll)] 0).lock.IsLocked 0 "alice" = false ∧
    (State.registered [("db_auth", declineAll)] 0).registry "db_auth" = some declineAll ∧
    declineAll.Authenticate { Principal := "alice", Password := "guess" } = (none, none) ∧
    (Login ("", none) { Principal := "alice", Password := "guess" }
        (State.registered [("db_auth", declineAll)] 0)).state.now = 0 + frozenTime ∧
    (Login ("", none) { Principal := "alice", Password := "guess" }
        (State.registered [("db_auth", declineAll)] 0)).state.lock.lockedUntil "alice"
      = some (0 + frozenTime) ∧
    (Login ("", none) { Principal := "alice", Password := "guess" }
        (Login ("", none) { Principal := "alice", Password := "guess" }
          (State.registered [("db_auth", declineAll)] 0)).state).events.filter
        Event.isAuthenticate
      = [Event.Authenticate declineAll { Principal := "alice", Password := "guess" }] :=
  ⟨by rfl, by rfl, by rfl, by rfl, by rfl, by rfl⟩

/-- The run of `Login` when the effective mode is bound to `a` and the principal is not
locked: `a` is invoked once, with the request, and its pair is what `Login` returns. -/
lemma Login_unlocked (c : String) (m : AuthModel) (s : State) (a : Authenticator)
    (hreg : s.registry (if c = "" ∨ m.Principal = "admin" then "db_auth" else c) = some a)
    (hlock : s.lock.IsLocked s.now m.Principal = false) :
    (Login (c, none) m s).events.filter Event.isAuthenticate = [Event.Authenticate a m] ∧
    ((Login (c, none) m s).user, (Login (c, none) m s).err) = a.Authenticate m := by
  by_cases hres : a.Authenticate m = (none, none)
  · rw [Login_declined c m s _ a rfl hreg hlock hres]
    simp [Event.isAuthenticate, hres]
  · rw [Login_passed c m s _ a rfl hreg hlock hres]
    simp [Event.isAuthenticate]

/-- C9, amended: let the effective mode `e` be bound to a strategy that returns
`(nil, nil)` for the request `m`, the principal be unlocked, and the tracker be built
with `frozenTime`.  The first `Login` returns no sooner than `frozenTime` after it began,
and leaves the deadline `start + frozenTime` recorded for the principal.  Every later
`Login` for the same principal, whatever its credential `m2` and whatever the configured
mode `c2`, provided its effective mode is bound to a strategy `a2`:
if it consults the tracker at a time strictly before that deadline, that is while the
first call is still in its forced delay, it returns `(nil, nil)` without invoking any
strategy and leaves the tracker as it is; if it is begun when the first has returned,
immediately or any time later, it finds the principal no longer locked, invokes `a2`
with `m2` and returns the pair `a2` returned. -/
theorem Login_declined_lock_window (c : String) (m : AuthModel) (s : State) (e : String)
    (a : Authenticator)
    (he : e = if c = "" ∨ m.Principal = "admin" then "db_auth" else c)
    (hreg : s.registry e = some a)
    (hlock : s.lock.IsLocked s.now m.Principal = false)
    (hres : a.Authenticate m = (none, none))
    (hd : s.lock.d = frozenTime) :
    s.now + frozenTime ≤ (Login (c, none) m s).state.now ∧
    (Login (c, none) m s).state.lock.lockedUntil m.Principal = some (s.now + frozenTime) ∧
    (∀ (c2 : String) (m2 : AuthModel) (a2 : Authenticator) (t : Nat),
      m2.Principal = m.Principal →
      s.registry (if c2 = "" ∨ m2.Principal = "admin" then "db_auth" else c2) = some a2 →
      t < s.now + frozenTime →
      (Login (c2, none) m2 ((Login (c, none) m s).state.atTime t)).user = none ∧
      (Login (c2, none) m2 ((Login (c, none) m s).state.atTime t)).err = none ∧
      (Login (c2, none) m2 ((Login (c, none) m s).state.atTime t)).events.all
        (fun ev => !ev.isAuthenticate) = true ∧
      (Login (c2, none) m2 ((Login (c, none) m s).state.atTime t)).state
        = (Login (c, none) m s).state.atTime t) ∧
    (∀ (c2 : String) (m2 : AuthModel) (a2 : Authenticator),
      m2.Principal = m.Principal →
      s.registry (if c2 = "" ∨ m2.Principal = "admin" then "db_auth" else c2) = some a2 →
      (Login (c, none) m s).state.lock.IsLocked (Login (c, none) m s).state.now
        m2.Principal = false ∧
      (Login (c2, none) m2 (Login (c, none) m s).state).events.filter Event.isAuthenticate
        = [Event.Authenticate a2 m2] ∧
      ((Login (c2, none) m2 (Login (c, none) m s).state).user,
       (Login (c2, none) m2 (Login (c, none) m s).state).err) = a2.Authenticate m2) ∧
    (∀ (c2 : String) (m2 : AuthModel) (a2 : Authenticator) (gap : Nat),
      m2.Principal = m.Principal →
      s.registry (if c2 = "" ∨ m2.Principal = "admin" then "db_auth" else c2) = some a2 →
      (Login (c, none) m s).state.lock.IsLocked ((Login (c, none) m s).state.now + gap)
        m2.Principal = false ∧
      (Login (c2, none) m2
        ((Login (c, none) m s).state.atTime ((Login (c, none) m s).state.now + gap))).events.filter
          Event.isAuthenticate = [Event.Authenticate a2 m2] ∧
      ((Login (c2, none) m2
        ((Login (c, none) m s).state.atTime ((Login (c, none) m s).state.now + gap))).user,
       (Login (c2, none) m2
        ((Login (c, none) m s).state.atTime ((Login (c, none) m s).state.now + gap))).err)
        = a2.Authenticate m2) := by
  have h1 := Login_declined c m s e a he hreg hlock hres
  have hst : (Login (c, none) m s).state =
      { registry := s.registry, lock := s.lock.Lock s.now m.Principal,
        now := s.now + frozenTime } := by
    rw [h1]
  have hreg1 : ∀ t, ((Login (c, none) m s).state.atTime t).registry = s.registry := by
    intro t
    rw [hst]
    rfl
  have hlk : ∀ (m2 : AuthModel) (t : Nat), m2.Principal = m.Principal →
      ((Login (c, none) m s).state.atTime t).lock.IsLocked
        ((Login (c, none) m s).state.atTime t).now m2.Principal
        = decide (t < s.now + frozenTime) := by
    intro m2 t hp
    rw [hst, hp]
    show (s.lock.Lock s.now m.Principal).IsLocked t m.Principal = _
    rw [UserLock.IsLocked_Lock, hd]
  have after : ∀ (c2 : String) (m2 : AuthModel) (a2 : Authenticator) (gap : Nat),
      m2.Principal = m.Principal →
      s.registry (if c2 = "" ∨ m2.Principal = "admin" then "db_auth" else c2) = some a2 →
      (Login (c, none) m s).state.lock.IsLocked ((Login (c, none) m s).state.now + gap)
        m2.Principal = false ∧
      (Login (c2, none) m2
        ((Login (c, none) m s).state.atTime ((Login (c, none) m s).state.now + gap))).events.filter
          Event.isAuthenticate = [Event.Authenticate a2 m2] ∧
      ((Login (c2, none) m2
        ((Login (c, none) m s).state.atTime ((Login (c, none) m s).state.now + gap))).user,
       (Login (c2, none) m2
        ((Login (c, none) m s).state.atTime ((Login (c, none) m s).state.now + gap))).err)
        = a2.Authenticate m2 := by
    intro c2 m2 a2 gap hp hreg2
    have hl := hlk m2 ((Login (c, none) m s).state.now + gap) hp
    have hge : ¬ ((Login (c, none) m s).state.now + gap < s.now + frozenTime) := by
      rw [hst]
      show ¬ (s.now + frozenTime + gap < s.now + frozenTime)
      omega
    rw [decide_eq_false hge] at hl
    have hreg3 : ((Login (c, none) m s).state.atTime
        ((Login (c, none) m s).state.now + gap)).registry
          (if c2 = "" ∨ m2.Principal = "admin" then "db_auth" else c2) = some a2 := by
      rw [hreg1]
      exact hreg2
    exact ⟨hl, Login_unlocked c2 m2 _ a2 hreg3 hl⟩
  refine ⟨?_, ?_, ?_, ?_, after⟩
  · rw [hst]
  · rw [hst]
    simp [UserLock.Lock, hd]
  · intro c2 m2 a2 t hp hreg2 ht
    have hl := hlk m2 t hp
    rw [decide_eq_true ht] at hl
    have hreg3 : ((Login (c, none) m s).state.atTime t).registry
        (if c2 = "" ∨ m2.Principal = "admin" then "db_auth" else c2) = some a2 := by
      rw [hreg1]
      exact hreg2
    rw [Login_locked c2 m2 _ _ a2 rfl hreg3 hl]
    simp [Event.isAuthenticate]
  · intro c2 m2 a2 hp hreg2
    exact after c2 m2 a2 0 hp hreg2

/-- Witness of C9, amended: `"alice"` against a declining `"db_auth"` strategy, first
attempt at time 0 with the password `"guess"`.  A later attempt with another password,
`"hunter2"`, is rejected without a strategy call at time 10, inside the delay, and
reaches the strategy when it is begun on the state the first attempt left. -/
theorem Login_declined_lock_window_witness :
    0 + frozenTime ≤ (Login ("", none) { Principal := "alice", Password := "guess" }
        (State.registered [("db_auth", declineAll)] 0)).state.now ∧
    (Login ("", none) { Principal := "alice", Password := "hunter2" }
        ((Login ("", none) { Principal := "alice", Password := "guess" }
          (State.registered [("db_auth", declineAll)] 0)).state.atTime 10)).events.all
        (fun ev => !ev.isAuthenticate) = true ∧
    (Login ("", none) { Principal := "alice", Password := "hunter2" }
        (Login ("", none) { Principal := "alice", Password := "guess" }
          (State.registered [("db_auth", declineAll)] 0)).state).events.filter
        Event.isAuthenticate
      = [Event.Authenticate declineAll { Principal := "alice", Password := "hunter2" }] :=
  have h := Login_declined_lock_window "" { Principal := "alice", Password := "guess" }
    (State.registered [("db_auth", declineAll)] 0) "db_auth" declineAll (by rfl) (by rfl)
    (by rfl) (by rfl) (by rfl)
  ⟨h.1,
   (h.2.2.1 "" { Principal := "alice", Password := "hunter2" } declineAll 10
      (by rfl) (by rfl) (by decide)).2.2.1,
   (h.2.2.2.1 "" { Principal := "alice", Password := "hunter2" } declineAll
      (by rfl) (by rfl)).2.1⟩

end auth
